import Mathlib

/-
  Verification of the ping-pong liveness-monitoring agent.

  The definitions below are a shallow embedding of the Go sources:
  the retrying probe `pingServer`, the self-check `callOwnHealthCheck`,
  the service constructor `NewService`, the health handler
  `healthCheckHandler`, and the poll loop `startPinging` (the variant
  with a context and a shutdown channel). Network effects are modelled
  by an environment: a list of per-attempt outcomes for the probe, a
  response for the self-check, and a list of per-tick observations for
  the loop. Unix timestamps are integers (seconds).
-/

namespace PingPong

/-- Environment outcome of one probe attempt: `http.NewRequest` fails
(`reqError`), `client.Do` fails (`transportError`), or a response
arrives with the given status code (`status`). -/
inductive Attempt where
  | reqError
  | transportError
  | status (code : Nat)
deriving DecidableEq

/-- An attempt is classified as failed unless its response status is
exactly 200 (`resp.StatusCode == http.StatusOK` in the source). -/
def attemptFails : Attempt → Bool
  | Attempt.status c => c != 200
  | _ => true

/-- What `callOwnHealthCheck` does with the response of its single GET
to the service's own URL: nothing but logging. -/
inductive SelfCheckLog where
  | skipped
  | succeeded
  | failedTransport
  | failedStatus (code : Nat)
deriving DecidableEq

/-- Embedding of `callOwnHealthCheck` (part_003 lines 189-206): skip
when `OwnURL` is empty, otherwise issue one GET whose outcome
(`selfResp`: `none` is a transport error, `some c` a response with
status `c`) is only logged. -/
def callOwnHealthCheck (ownURL : String) (selfResp : Option Nat) : SelfCheckLog :=
  if ownURL = "" then SelfCheckLog.skipped
  else
    match selfResp with
    | none => SelfCheckLog.failedTransport
    | some c => if c = 200 then SelfCheckLog.succeeded else SelfCheckLog.failedStatus c

/-- Observable result of one `pingServer` cycle: the returned Bool, the
number of attempts entered, the number of 1-second backoff sleeps, the
number of `callOwnHealthCheck` invocations, the number of GETs actually
issued to `OwnURL`, the value of `lastPingSuccess` after the cycle, and
the self-check's log entry if it ran. -/
structure PingResult where
  success : Bool
  attemptsMade : Nat
  sleeps : Nat
  selfCheckCalls : Nat
  selfCheckGETs : Nat
  lastPing : Int
  selfLog : Option SelfCheckLog
deriving DecidableEq

/-- Embedding of `Service.pingServer` (part_003 lines 143-186). The
list `outcomes` has one entry per loop index `i < MaxRetries`; its
length plays the role of `MaxRetries`, and `rest = []` is the source's
`i == MaxRetries-1`. A request-construction error just `continue`s (no
sleep); a transport error or a non-200 status sleeps 1 second when
attempts remain; a 200 response stores `now` into `lastPingSuccess`,
runs the self-check, and returns true. -/
def pingServer (ownURL : String) (selfResp : Option Nat) (now lastPing : Int) :
    List Attempt → PingResult
  | [] =>
    { success := false, attemptsMade := 0, sleeps := 0, selfCheckCalls := 0,
      selfCheckGETs := 0, lastPing := lastPing, selfLog := none }
  | Attempt.reqError :: rest =>
    let r := pingServer ownURL selfResp now lastPing rest
    { r with attemptsMade := r.attemptsMade + 1 }
  | Attempt.transportError :: rest =>
    match rest with
    | [] =>
      { success := false, attemptsMade := 1, sleeps := 0, selfCheckCalls := 0,
        selfCheckGETs := 0, lastPing := lastPing, selfLog := none }
    | _ :: _ =>
      let r := pingServer ownURL selfResp now lastPing rest
      { r with attemptsMade := r.attemptsMade + 1, sleeps := r.sleeps + 1 }
  | Attempt.status c :: rest =>
    if c = 200 then
      { success := true, attemptsMade := 1, sleeps := 0, selfCheckCalls := 1,
        selfCheckGETs := if ownURL = "" then 0 else 1, lastPing := now,
        selfLog := some (callOwnHealthCheck ownURL selfResp) }
    else
      match rest with
      | [] =>
        { success := false, attemptsMade := 1, sleeps := 0, selfCheckCalls := 0,
          selfCheckGETs := 0, lastPing := lastPing, selfLog := none }
      | _ :: _ =>
        let r := pingServer ownURL selfResp now lastPing rest
        { r with attemptsMade := r.attemptsMade + 1, sleeps := r.sleeps + 1 }

/-- An HTTP response of the health endpoint: status code and body. -/
structure HttpResponse where
  statusCode : Nat
  body : String
deriving DecidableEq

/-- Embedding of `healthCheckHandler` (part_003 lines 209-222):
`lastPing` is the loaded `lastPingSuccess` (0 means no success yet),
`now` the current Unix time. -/
def healthCheckHandler (lastPing now : Int) : HttpResponse :=
  if lastPing = 0 then
    { statusCode := 503, body := "No successful pings yet" }
  else if now - lastPing > 15 * 60 then
    { statusCode := 503, body := "Last successful ping was too long ago" }
  else
    { statusCode := 200, body := "Ping-Pong-Go Server is healthy" }

/-- The health predicate the handler decides: healthy iff some probe
has succeeded and the last success is at most 15 minutes old. -/
def isHealthy (lastPing now : Int) : Bool :=
  if lastPing = 0 then false
  else if now - lastPing > 15 * 60 then false
  else true

/-- Embedding of the library `Config` (part_003 lines 22-30). The
`Logger` interface value is modelled by its presence (`hasLogger`);
the ping interval is in milliseconds. -/
structure Config where
  ServerURL : String
  OwnURL : String
  PingIntervalMs : Int
  Headers : List (String × String)
  MaxConsecutiveFails : Int
  MaxRetries : Int
  hasLogger : Bool
deriving DecidableEq

/-- Embedding of the library `Service` (part_003 lines 52-58),
restricted to the configuration it carries. -/
structure Service where
  config : Config
deriving DecidableEq

/-- Embedding of `NewService` (part_003 lines 61-72): install the
default logger when none is given, and replace `MaxRetries = 0` by the
default 3. There is no rejection path: every configuration yields a
service. -/
def NewService (config : Config) : Service :=
  let c1 := if config.hasLogger then config else { config with hasLogger := true }
  let c2 := if c1.MaxRetries = 0 then { c1 with MaxRetries := 3 } else c1
  { config := c2 }

/-- Why the poll loop stopped: the context was cancelled at the select,
the consecutive-failure threshold was reached, or the modelled tick
sequence ran out (the loop would keep waiting for the next tick). -/
inductive StopReason where
  | ctxCancelled
  | thresholdHit
  | ticksExhausted
deriving DecidableEq

/-- One iteration of the loop's select: whether `ctx.Done()` is ready,
and the Bool `pingServer` would return if invoked at this tick. -/
structure Tick where
  ctxDone : Bool
  probeOk : Bool
deriving DecidableEq

/-- Observable result of a run of the poll loop: number of `pingServer`
invocations, number of sends on `shutdownChan`, the final
`consecutiveFailures`, the value of `consecutiveFailures` after each
processed tick, and why the run stopped. -/
structure LoopResult where
  probes : Nat
  shutdownSignals : Nat
  count : Int
  trace : List Int
  reason : StopReason
deriving DecidableEq

/-- Embedding of `startPinging` (part_000 lines 406-447; part_003 lines
117-140 is the same loop without the `shutdownChan` send). Each tick:
if the context is done, return without probing; otherwise probe; on
success reset `consecutiveFailures` to 0; on failure increment it and,
when the new value reaches `MaxConsecutiveFails`, send the automatic
shutdown signal once and return. -/
def startPinging (maxFails count : Int) : List Tick → LoopResult
  | [] =>
    { probes := 0, shutdownSignals := 0, count := count, trace := [],
      reason := StopReason.ticksExhausted }
  | t :: rest =>
    if t.ctxDone then
      { probes := 0, shutdownSignals := 0, count := count, trace := [],
        reason := StopReason.ctxCancelled }
    else if t.probeOk then
      let r := startPinging maxFails 0 rest
      { r with probes := r.probes + 1, trace := 0 :: r.trace }
    else if count + 1 ≥ maxFails then
      { probes := 1, shutdownSignals := 1, count := count + 1, trace := [count + 1],
        reason := StopReason.thresholdHit }
    else
      let r := startPinging maxFails (count + 1) rest
      { r with probes := r.probes + 1, trace := (count + 1) :: r.trace }

/-- A tick at which the context is not done and the probe fails. -/
def failTick : Tick := { ctxDone := false, probeOk := false }

/-- A tick at which the context is not done and the probe succeeds. -/
def okTick : Tick := { ctxDone := false, probeOk := true }

/-- Modelled from the claim's words: every failed attempt that is not
the last is followed by a 1-second backoff, regardless of the failure
kind (request-construction failure, transport error, or non-success
status alike). Counts the backoffs that reading demands. -/
def backoffsPerClaim : List Attempt → Nat
  | [] => 0
  | a :: rest =>
    if attemptFails a then
      match rest with
      | [] => 0
      | _ :: _ => backoffsPerClaim rest + 1
    else 0

/-- Modelled from the amended spec words: a failed attempt that is not
the last is followed by the 1-second backoff when it is a transport
error or a non-200 status; a request-construction failure moves to the
next attempt immediately, with no backoff. -/
def backoffsAmended : List Attempt → Nat
  | [] => 0
  | Attempt.reqError :: rest => backoffsAmended rest
  | Attempt.transportError :: rest =>
    match rest with
    | [] => 0
    | _ :: _ => backoffsAmended rest + 1
  | Attempt.status c :: rest =>
    if c = 200 then 0
    else
      match rest with
      | [] => 0
      | _ :: _ => backoffsAmended rest + 1

/-- Go's `pingServer` receives no context: the process-wide
cancellation signal is not an input of the retry loop, so the probe's
behaviour is the same whatever the cancellation state
(`cancelledBeforeAttempt i` models whether cancellation is already set
when attempt `i` would start). -/
def pingServerUnderCancellation (cancelledBeforeAttempt : Nat → Bool)
    (ownURL : String) (selfResp : Option Nat) (now lastPing : Int)
    (outcomes : List Attempt) : PingResult :=
  pingServer ownURL selfResp now lastPing outcomes

/-- A failed attempt that is not the last one leaves the observable
outcome of the remaining attempts unchanged except for the attempt and
sleep counters. -/
theorem pingServer_cons_fail_proj (ownURL : String) (selfResp : Option Nat)
    (now lastPing : Int) (a : Attempt) (rest : List Attempt)
    (hrest : rest ≠ []) (ha : attemptFails a = true) :
    (pingServer ownURL selfResp now lastPing (a :: rest)).success
      = (pingServer ownURL selfResp now lastPing rest).success
    ∧ (pingServer ownURL selfResp now lastPing (a :: rest)).selfCheckCalls
      = (pingServer ownURL selfResp now lastPing rest).selfCheckCalls
    ∧ (pingServer ownURL selfResp now lastPing (a :: rest)).selfCheckGETs
      = (pingServer ownURL selfResp now lastPing rest).selfCheckGETs
    ∧ (pingServer ownURL selfResp now lastPing (a :: rest)).lastPing
      = (pingServer ownURL selfResp now lastPing rest).lastPing := by
  obtain ⟨b, l, rfl⟩ := List.exists_cons_of_ne_nil hrest
  cases a with
  | reqError => simp [pingServer]
  | transportError => simp [pingServer]
  | status c =>
    have hc : ¬ c = 200 := by simpa [attemptFails] using ha
    simp [pingServer, hc]

/-- If every attempt fails, the probe returns false, never invokes the
self-check, enters every attempt, and leaves the timestamp unchanged. -/
theorem pingServer_all_fail (ownURL : String) (selfResp : Option Nat)
    (now lastPing : Int) (outcomes : List Attempt)
    (h : ∀ a ∈ outcomes, attemptFails a = true) :
    (pingServer ownURL selfResp now lastPing outcomes).success = false
    ∧ (pingServer ownURL selfResp now lastPing outcomes).selfCheckCalls = 0
    ∧ (pingServer ownURL selfResp now lastPing outcomes).attemptsMade = outcomes.length
    ∧ (pingServer ownURL selfResp now lastPing outcomes).lastPing = lastPing := by
  induction outcomes with
  | nil => simp [pingServer]
  | cons a rest ih =>
    have ha : attemptFails a = true := h a (List.mem_cons_self a rest)
    have hrest : ∀ b ∈ rest, attemptFails b = true :=
      fun b hb => h b (List.mem_cons_of_mem a hb)
    have ihr := ih hrest
    cases a with
    | reqError => simpa [pingServer] using ihr
    | transportError =>
      cases rest with
      | nil => simp [pingServer]
      | cons b l => simpa [pingServer] using ihr
    | status c =>
      have hc : ¬ c = 200 := by simpa [attemptFails] using ha
      cases rest with
      | nil => simp [pingServer, hc]
      | cons b l => simpa [pingServer, hc] using ihr

/-- The Bool `pingServer` returns does not depend on the response the
self-check obtains. -/
theorem pingServer_selfResp_success (ownURL : String) (selfResp selfResp' : Option Nat)
    (now lastPing : Int) (outcomes : List Attempt) :
    (pingServer ownURL selfResp now lastPing outcomes).success
      = (pingServer ownURL selfResp' now lastPing outcomes).success := by
  induction outcomes with
  | nil => rfl
  | cons a rest ih =>
    cases a with
    | reqError => simpa [pingServer] using ih
    | transportError =>
      cases rest with
      | nil => rfl
      | cons b l => simpa [pingServer] using ih
    | status c =>
      by_cases hc : c = 200
      · simp [pingServer, hc]
      · cases rest with
        | nil => simp [pingServer, hc]
        | cons b l => simpa [pingServer, hc] using ih

/-- If the attempts before a 200 response all fail, the probe succeeds
and runs the self-check exactly once. -/
theorem pingServer_fails_then_ok (ownURL : String) (selfResp : Option Nat)
    (now lastPing : Int) (pre post : List Attempt)
    (h : ∀ a ∈ pre, attemptFails a = true) :
    (pingServer ownURL selfResp now lastPing (pre ++ Attempt.status 200 :: post)).success = true
    ∧ (pingServer ownURL selfResp now lastPing (pre ++ Attempt.status 200 :: post)).selfCheckCalls = 1
    ∧ (pingServer ownURL selfResp now lastPing (pre ++ Attempt.status 200 :: post)).selfCheckGETs
        = (if ownURL = "" then 0 else 1) := by
  induction pre with
  | nil => simp [pingServer]
  | cons a pre ih =>
    have ha : attemptFails a = true := h a (List.mem_cons_self a pre)
    have hpre : ∀ b ∈ pre, attemptFails b = true :=
      fun b hb => h b (List.mem_cons_of_mem a hb)
    have ihr := ih hpre
    rw [List.cons_append]
    have hne : pre ++ Attempt.status 200 :: post ≠ [] := by
      cases pre <;> simp
    obtain ⟨h1, h2, h3, _⟩ :=
      pingServer_cons_fail_proj ownURL selfResp now lastPing a
        (pre ++ Attempt.status 200 :: post) hne ha
    exact ⟨h1.trans ihr.1, h2.trans ihr.2.1, h3.trans ihr.2.2⟩

/-- Claim C2: if the first n-1 attempts fail and the nth returns 200
(within `maxRetries`), the probe outcome is Success and the self-check
GET to the own URL is issued exactly once; if all attempts fail, the
outcome is Failure and the self-check is never invoked; and the
response of the self-check call never changes the Success outcome. -/
theorem pingServer_retry_contract :
    (∀ (ownURL : String) (selfResp : Option Nat) (now lastPing : Int)
        (pre post : List Attempt),
      (∀ a ∈ pre, attemptFails a = true) → ownURL ≠ "" →
      (pingServer ownURL selfResp now lastPing (pre ++ Attempt.status 200 :: post)).success = true
      ∧ (pingServer ownURL selfResp now lastPing
          (pre ++ Attempt.status 200 :: post)).selfCheckCalls = 1
      ∧ (pingServer ownURL selfResp now lastPing
          (pre ++ Attempt.status 200 :: post)).selfCheckGETs = 1)
    ∧ (∀ (ownURL : String) (selfResp : Option Nat) (now lastPing : Int)
        (outcomes : List Attempt),
      (∀ a ∈ outcomes, attemptFails a = true) →
      (pingServer ownURL selfResp now lastPing outcomes).success = false
      ∧ (pingServer ownURL selfResp now lastPing outcomes).selfCheckCalls = 0)
    ∧ (∀ (ownURL : String) (selfResp selfResp' : Option Nat) (now lastPing : Int)
        (outcomes : List Attempt),
      (pingServer ownURL selfResp now lastPing outcomes).success
        = (pingServer ownURL selfResp' now lastPing outcomes).success) := by
  refine ⟨fun ownURL selfResp now lastPing pre post h hURL => ?_,
    fun ownURL selfResp now lastPing outcomes h =>
      ⟨(pingServer_all_fail ownURL selfResp now lastPing outcomes h).1,
       (pingServer_all_fail ownURL selfResp now lastPing outcomes h).2.1⟩,
    fun ownURL selfResp selfResp' now lastPing outcomes =>
      pingServer_selfResp_success ownURL selfResp selfResp' now lastPing outcomes⟩
  obtain ⟨h1, h2, h3⟩ := pingServer_fails_then_ok ownURL selfResp now lastPing pre post h
  exact ⟨h1, h2, by simpa [hURL] using h3⟩

/-- Witness for C2 at concrete inputs: one transport failure then a 200
yields Success with one self-check GET; a single 500 yields Failure with
no self-check invocation. -/
theorem pingServer_retry_contract_witness :
    (pingServer "http://me" none 9 7 [Attempt.transportError, Attempt.status 200]).success = true
    ∧ (pingServer "http://me" none 9 7
        [Attempt.transportError, Attempt.status 200]).selfCheckGETs = 1
    ∧ (pingServer "http://me" none 9 7 [Attempt.status 500]).selfCheckCalls = 0 :=
  ⟨(pingServer_retry_contract.1 "http://me" none 9 7 [Attempt.transportError] []
      (by decide) (by decide)).1,
   (pingServer_retry_contract.1 "http://me" none 9 7 [Attempt.transportError] []
      (by decide) (by decide)).2.2,
   (pingServer_retry_contract.2.1 "http://me" none 9 7 [Attempt.status 500] (by decide)).2⟩

/-- Claim C3: the health predicate is false when no ping has succeeded
and when the last success is strictly older than 15 minutes, true
otherwise (including at exactly 15 minutes); the handler returns 200
with the healthy body when it is true, and 503 with the body that
distinguishes the never-succeeded case from the stale case. -/
theorem healthCheck_contract : ∀ (lastPing now : Int),
    (lastPing = 0 → isHealthy lastPing now = false
      ∧ healthCheckHandler lastPing now
          = { statusCode := 503, body := "No successful pings yet" })
    ∧ (lastPing ≠ 0 → 15 * 60 < now - lastPing → isHealthy lastPing now = false
      ∧ healthCheckHandler lastPing now
          = { statusCode := 503, body := "Last successful ping was too long ago" })
    ∧ (lastPing ≠ 0 → now - lastPing ≤ 15 * 60 → isHealthy lastPing now = true
      ∧ healthCheckHandler lastPing now
          = { statusCode := 200, body := "Ping-Pong-Go Server is healthy" }) := by
  intro lastPing now
  refine ⟨fun h => ?_, fun h h2 => ?_, fun h h2 => ?_⟩
  · simp [isHealthy, healthCheckHandler, h]
  · simp [isHealthy, healthCheckHandler, h, h2]
    omega
  · have h3 : ¬ (now - lastPing > 15 * 60) := by omega
    simp [isHealthy, healthCheckHandler, h, h3]
    omega

/-- Witness for C3: never succeeded is unhealthy; 901 seconds is stale;
900 seconds (exactly 15 minutes) is still healthy. -/
theorem healthCheck_contract_witness :
    (isHealthy 0 5 = false
      ∧ healthCheckHandler 0 5 = { statusCode := 503, body := "No successful pings yet" })
    ∧ healthCheckHandler 100 1001
        = { statusCode := 503, body := "Last successful ping was too long ago" }
    ∧ healthCheckHandler 100 1000
        = { statusCode := 200, body := "Ping-Pong-Go Server is healthy" } :=
  ⟨(healthCheck_contract 0 5).1 rfl,
   ((healthCheck_contract 100 1001).2.1 (by decide) (by decide)).2,
   ((healthCheck_contract 100 1000).2.2 (by decide) (by decide)).2⟩

/-- Counterexample to C5 as stated: a request-construction failure on a
non-last attempt is not followed by the 1-second backoff — the source
`continue`s immediately — while the claim demands one backoff there. -/
theorem pingServer_backoff_counterexample :
    (pingServer "" none 0 0 [Attempt.reqError, Attempt.status 500]).sleeps = 0
    ∧ backoffsPerClaim [Attempt.reqError, Attempt.status 500] = 1
    ∧ (pingServer "" none 0 0 [Attempt.reqError, Attempt.status 500]).sleeps
        ≠ backoffsPerClaim [Attempt.reqError, Attempt.status 500] := by
  decide

/-- Claim C5 (amended): between a failed attempt and the next one the
executor sleeps the flat 1-second backoff when the failure is a
transport error or a non-200 status; a request-construction failure
retries immediately with no backoff. -/
theorem pingServer_backoff_policy : ∀ (ownURL : String) (selfResp : Option Nat)
    (now lastPing : Int) (outcomes : List Attempt),
    (pingServer ownURL selfResp now lastPing outcomes).sleeps = backoffsAmended outcomes := by
  intro ownURL selfResp now lastPing outcomes
  induction outcomes with
  | nil => rfl
  | cons a rest ih =>
    cases a with
    | reqError => simpa [pingServer, backoffsAmended] using ih
    | transportError =>
      cases rest with
      | nil => rfl
      | cons b l => simp [pingServer, backoffsAmended, ih]
    | status c =>
      by_cases hc : c = 200
      · simp [pingServer, backoffsAmended, hc]
      · cases rest with
        | nil => simp [pingServer, backoffsAmended, hc]
        | cons b l => simp [pingServer, backoffsAmended, hc, ih]

/-- Claim C6: a probe attempt that receives a response is successful
exactly when the status code is 200; any other code, other 2xx
included, is a failed attempt and the cycle goes on with the remaining
attempts. -/
theorem pingServer_success_iff_200 : ∀ (ownURL : String) (selfResp : Option Nat)
    (now lastPing : Int) (c : Nat) (rest : List Attempt),
    (pingServer ownURL selfResp now lastPing (Attempt.status c :: rest)).success
      = (decide (c = 200) || (pingServer ownURL selfResp now lastPing rest).success) := by
  intro ownURL selfResp now lastPing c rest
  by_cases hc : c = 200
  · simp [pingServer, hc]
  · cases rest with
    | nil => simp [pingServer, hc]
    | cons b l => simp [pingServer, hc]

/-- Counterexample to C7 as stated: `NewService` neither rejects
`MaxRetries = 0` nor coerces it to 1 — it replaces it by the default
3. -/
theorem NewService_zero_retries_counterexample :
    (NewService { ServerURL := "", OwnURL := "", PingIntervalMs := 0, Headers := [], MaxConsecutiveFails := 0, MaxRetries := 0, hasLogger := false }).config.MaxRetries = 3
    ∧ (NewService { ServerURL := "", OwnURL := "", PingIntervalMs := 0, Headers := [], MaxConsecutiveFails := 0, MaxRetries := 0, hasLogger := false }).config.MaxRetries ≠ 1 := by
  decide

/-- Claim C7 (amended): `NewService` accepts every configuration;
`maxRetries = 0` is coerced to the source default 3, and any nonzero
value is kept. -/
theorem NewService_maxRetries_default : ∀ c : Config,
    (c.MaxRetries = 0 → (NewService c).config.MaxRetries = 3)
    ∧ (c.MaxRetries ≠ 0 → (NewService c).config.MaxRetries = c.MaxRetries) := by
  intro c
  constructor <;> intro h <;>
    by_cases hl : c.hasLogger <;>
      simp [NewService, hl, h]

/-- Witness for C7 (amended): a zero setting becomes 3, a nonzero
setting is preserved. -/
theorem NewService_maxRetries_default_witness :
    (NewService { ServerURL := "", OwnURL := "", PingIntervalMs := 0, Headers := [], MaxConsecutiveFails := 0, MaxRetries := 0, hasLogger := false }).config.MaxRetries = 3
    ∧ (NewService { ServerURL := "", OwnURL := "", PingIntervalMs := 0, Headers := [], MaxConsecutiveFails := 0, MaxRetries := 5, hasLogger := false }).config.MaxRetries = 5 :=
  ⟨(NewService_maxRetries_default _).1 rfl,
   (NewService_maxRetries_default _).2 (by decide)⟩

/-- Claim C8: the stored last-success timestamp is written only when a
probe attempt succeeds: a failed cycle leaves it exactly as it was, and
a successful cycle sets it to the current time. -/
theorem pingServer_lastPing_frame : ∀ (ownURL : String) (selfResp : Option Nat)
    (now lastPing : Int) (outcomes : List Attempt),
    ((pingServer ownURL selfResp now lastPing outcomes).success = false →
      (pingServer ownURL selfResp now lastPing outcomes).lastPing = lastPing)
    ∧ ((pingServer ownURL selfResp now lastPing outcomes).success = true →
      (pingServer ownURL selfResp now lastPing outcomes).lastPing = now) := by
  intro ownURL selfResp now lastPing outcomes
  induction outcomes with
  | nil => simp [pingServer]
  | cons a rest ih =>
    cases a with
    | reqError => simpa [pingServer] using ih
    | transportError =>
      cases rest with
      | nil => simp [pingServer]
      | cons b l => simpa [pingServer] using ih
    | status c =>
      by_cases hc : c = 200
      · simp [pingServer, hc]
      · cases rest with
        | nil => simp [pingServer, hc]
        | cons b l => simpa [pingServer, hc] using ih

/-- Witness for C8: a failing cycle keeps the old timestamp 7; a
succeeding cycle stores the current time 5. -/
theorem pingServer_lastPing_frame_witness :
    (pingServer "" none 5 7 [Attempt.transportError]).lastPing = 7
    ∧ (pingServer "" none 5 7 [Attempt.status 200]).lastPing = 5 :=
  ⟨(pingServer_lastPing_frame "" none 5 7 [Attempt.transportError]).1 (by decide),
   (pingServer_lastPing_frame "" none 5 7 [Attempt.status 200]).2 (by decide)⟩

/-- A tick at which the context is done stops the loop at once. -/
theorem startPinging_cons_done (t c : Int) (tk : Tick) (rest : List Tick)
    (h : tk.ctxDone = true) :
    startPinging t c (tk :: rest)
      = { probes := 0, shutdownSignals := 0, count := c, trace := [],
          reason := StopReason.ctxCancelled } := by
  simp [startPinging, h]

/-- A successful probe resets the counter and the loop goes on. -/
theorem startPinging_cons_ok (t c : Int) (tk : Tick) (rest : List Tick)
    (h1 : tk.ctxDone = false) (h2 : tk.probeOk = true) :
    startPinging t c (tk :: rest)
      = { startPinging t 0 rest with
          probes := (startPinging t 0 rest).probes + 1,
          trace := 0 :: (startPinging t 0 rest).trace } := by
  simp [startPinging, h1, h2]

/-- A failed probe that brings the counter to the threshold stops the
loop and sends the shutdown signal. -/
theorem startPinging_cons_fail_stop (t c : Int) (tk : Tick) (rest : List Tick)
    (h1 : tk.ctxDone = false) (h2 : tk.probeOk = false) (h3 : c + 1 ≥ t) :
    startPinging t c (tk :: rest)
      = { probes := 1, shutdownSignals := 1, count := c + 1, trace := [c + 1],
          reason := StopReason.thresholdHit } := by
  simp [startPinging, h1, h2, h3]

/-- A failed probe below the threshold bumps the counter and the loop
goes on. -/
theorem startPinging_cons_fail_go (t c : Int) (tk : Tick) (rest : List Tick)
    (h1 : tk.ctxDone = false) (h2 : tk.probeOk = false) (h3 : ¬ (c + 1 ≥ t)) :
    startPinging t c (tk :: rest)
      = { startPinging t (c + 1) rest with
          probes := (startPinging t (c + 1) rest).probes + 1,
          trace := (c + 1) :: (startPinging t (c + 1) rest).trace } := by
  simp [startPinging, h1, h2, h3]

/-- Running the loop on k failures below the threshold followed by one
success probes k+1 times, signals nothing, and ends with the counter
reset to 0 waiting for the next tick. -/
theorem startPinging_below_threshold : ∀ (k : Nat) (t c : Int), c + k < t →
    (startPinging t c (List.replicate k failTick ++ [okTick])).shutdownSignals = 0
    ∧ (startPinging t c (List.replicate k failTick ++ [okTick])).count = 0
    ∧ (startPinging t c (List.replicate k failTick ++ [okTick])).probes = k + 1
    ∧ (startPinging t c (List.replicate k failTick ++ [okTick])).reason
        = StopReason.ticksExhausted := by
  intro k
  induction k with
  | zero => intro t c h; simp [startPinging, okTick]
  | succ k ih =>
    intro t c h
    have h1 : ¬ (c + 1 ≥ t) := by omega
    have ihr := ih t (c + 1) (by omega)
    simp only [List.replicate_succ, List.cons_append]
    rw [startPinging_cons_fail_go t c failTick _ rfl rfl h1]
    exact ⟨ihr.1, ihr.2.1, by simp [ihr.2.2.1], ihr.2.2.2⟩

/-- Running the loop on exactly enough consecutive failures to reach
the threshold sends the shutdown signal once, stops for that reason,
and probes exactly that many times. -/
theorem startPinging_reach_threshold : ∀ (k : Nat) (t c : Int), 1 ≤ k → c + k = t →
    (startPinging t c (List.replicate k failTick)).shutdownSignals = 1
    ∧ (startPinging t c (List.replicate k failTick)).reason = StopReason.thresholdHit
    ∧ (startPinging t c (List.replicate k failTick)).probes = k
    ∧ (startPinging t c (List.replicate k failTick)).count = t := by
  intro k
  induction k with
  | zero => intro t c h; omega
  | succ k ih =>
    intro t c _ h2
    cases k with
    | zero =>
      simp only [List.replicate_succ, List.replicate_zero]
      rw [startPinging_cons_fail_stop t c failTick _ rfl rfl (by omega)]
      exact ⟨rfl, rfl, rfl, by show c + 1 = t; omega⟩
    | succ m =>
      have h1 : ¬ (c + 1 ≥ t) := by omega
      have ihr := ih t (c + 1) (by omega) (by omega)
      simp only [List.replicate_succ] at ihr
      simp only [List.replicate_succ]
      rw [startPinging_cons_fail_go t c failTick _ rfl rfl h1]
      exact ⟨ihr.1, ihr.2.1, by simp [ihr.2.2.1], ihr.2.2.2⟩

/-- Claim C1: with any threshold t at least 1, a run of k < t
consecutive failures followed by one success resets the counter to 0
and never signals shutdown; exactly t consecutive failures signal
shutdown exactly once; and a single failure bumps the counter by one
and signals exactly when the new value reaches the threshold. -/
theorem startPinging_failureTracker : ∀ (t k : Nat), 1 ≤ t → k < t →
    ((startPinging (t : Int) 0 (List.replicate k failTick ++ [okTick])).shutdownSignals = 0
     ∧ (startPinging (t : Int) 0 (List.replicate k failTick ++ [okTick])).count = 0)
    ∧ ((startPinging (t : Int) 0 (List.replicate t failTick)).shutdownSignals = 1
     ∧ (startPinging (t : Int) 0 (List.replicate t failTick)).reason
         = StopReason.thresholdHit)
    ∧ (∀ c : Int, (startPinging (t : Int) c [failTick]).count = c + 1
     ∧ (startPinging (t : Int) c [failTick]).shutdownSignals
         = if c + 1 ≥ (t : Int) then 1 else 0) := by
  intro t k ht hk
  refine ⟨?_, ?_, ?_⟩
  · have h := startPinging_below_threshold k (t : Int) 0 (by omega)
    exact ⟨h.1, h.2.1⟩
  · have h := startPinging_reach_threshold t (t : Int) 0 (by omega) (by omega)
    exact ⟨h.1, h.2.1⟩
  · intro c
    by_cases hthr : c + 1 ≥ (t : Int)
    · simp [startPinging, failTick, hthr]
    · simp [startPinging, failTick, hthr]

/-- Witness for C1 with threshold 2: one failure then one success never
signals and resets the counter; two failures signal exactly once. -/
theorem startPinging_failureTracker_witness :
    ((startPinging ((2 : Nat) : Int) 0 (List.replicate 1 failTick ++ [okTick])).shutdownSignals = 0
     ∧ (startPinging ((2 : Nat) : Int) 0 (List.replicate 1 failTick ++ [okTick])).count = 0)
    ∧ (startPinging ((2 : Nat) : Int) 0 (List.replicate 2 failTick)).shutdownSignals = 1 :=
  ⟨(startPinging_failureTracker 2 1 (by decide) (by decide)).1,
   (startPinging_failureTracker 2 1 (by decide) (by decide)).2.1.1⟩

/-- Claim C4: when a run of the poll loop stops because the
consecutive-failure threshold was reached, appending any further ticks
changes nothing — no further probe runs — and the run has sent the
automatic-shutdown signal exactly once. -/
theorem startPinging_threshold_terminates : ∀ (t c : Int) (ticks rest : List Tick),
    (startPinging t c ticks).reason = StopReason.thresholdHit →
    startPinging t c (ticks ++ rest) = startPinging t c ticks
    ∧ (startPinging t c ticks).shutdownSignals = 1 := by
  intro t c ticks
  induction ticks generalizing c with
  | nil => intro rest h; simp [startPinging] at h
  | cons tk ticks ih =>
    intro rest h
    by_cases h1 : tk.ctxDone
    · simp [startPinging, h1] at h
    · by_cases h2 : tk.probeOk
      · simp only [startPinging, h1, if_false, h2, if_true] at h ⊢
        have := ih 0 rest h
        simp [this.1, this.2]
      · by_cases h3 : c + 1 ≥ t
        · simp [startPinging, h1, h2, h3]
        · simp only [startPinging, h1, if_false, h2, h3, if_true] at h ⊢
          have := ih (c + 1) rest h
          simp [this.1, this.2]

/-- Witness for C4: with threshold 1 a single failing tick reaches the
threshold; a subsequent successful tick is never processed and the
signal was sent once. -/
theorem startPinging_threshold_terminates_witness :
    startPinging 1 0 ([failTick] ++ [okTick]) = startPinging 1 0 [failTick]
    ∧ (startPinging 1 0 [failTick]).shutdownSignals = 1 :=
  startPinging_threshold_terminates 1 0 [failTick] [okTick] (by decide)

/-- Counterexample to C9 as stated: with the cancellation signal set
before every attempt, a probe whose three attempts all fail still
enters all three attempts and performs both backoff sleeps — the retry
loop never observes cancellation. -/
theorem pingServer_ignores_cancellation_counterexample :
    (pingServerUnderCancellation (fun _ => true) "" none 0 0
      [Attempt.transportError, Attempt.transportError, Attempt.transportError]).attemptsMade = 3
    ∧ (pingServerUnderCancellation (fun _ => true) "" none 0 0
      [Attempt.transportError, Attempt.transportError, Attempt.transportError]).sleeps = 2 := by
  decide

/-- Claim C9 (amended): cancellation is observed between ticks only — a
tick at which the context is done stops the loop before any probe runs
— while `pingServer` receives no cancellation signal, so an in-progress
probe runs all of its remaining attempts whatever the cancellation
state. -/
theorem cancellation_between_ticks_only :
    (∀ (t c : Int) (tk : Tick) (rest : List Tick), tk.ctxDone = true →
      startPinging t c (tk :: rest)
        = { probes := 0, shutdownSignals := 0, count := c, trace := [],
            reason := StopReason.ctxCancelled })
    ∧ (∀ (cancel : Nat → Bool) (ownURL : String) (selfResp : Option Nat)
        (now lastPing : Int) (outcomes : List Attempt),
      pingServerUnderCancellation cancel ownURL selfResp now lastPing outcomes
        = pingServer ownURL selfResp now lastPing outcomes)
    ∧ (∀ (cancel : Nat → Bool) (ownURL : String) (selfResp : Option Nat)
        (now lastPing : Int) (outcomes : List Attempt),
      (∀ a ∈ outcomes, attemptFails a = true) →
      (pingServerUnderCancellation cancel ownURL selfResp now lastPing
        outcomes).attemptsMade = outcomes.length) := by
  refine ⟨fun t c tk rest h => by simp [startPinging, h],
    fun cancel ownURL selfResp now lastPing outcomes => rfl,
    fun cancel ownURL selfResp now lastPing outcomes h => ?_⟩
  exact (pingServer_all_fail ownURL selfResp now lastPing outcomes h).2.2.1

/-- Witness for C9 (amended): a done context stops the loop before any
probe, and a probe with three failing attempts enters all three even
with cancellation raised throughout. -/
theorem cancellation_between_ticks_only_witness :
    startPinging 3 0 ({ ctxDone := true, probeOk := true } :: [failTick])
      = { probes := 0, shutdownSignals := 0, count := 0, trace := [],
          reason := StopReason.ctxCancelled }
    ∧ (pingServerUnderCancellation (fun _ => true) "" none 0 0
      [Attempt.transportError, Attempt.transportError, Attempt.transportError]).attemptsMade = 3 :=
  ⟨cancellation_between_ticks_only.1 3 0 { ctxDone := true, probeOk := true } [failTick] rfl,
   cancellation_between_ticks_only.2.2 (fun _ => true) "" none 0 0
     [Attempt.transportError, Attempt.transportError, Attempt.transportError] (by decide)⟩

/-- Along any run of the loop started strictly below the threshold, the
counter value observed after each tick never exceeds the threshold. -/
theorem startPinging_trace_bound : ∀ (ticks : List Tick) (t c : Int), 1 ≤ t → c < t →
    ∀ x ∈ (startPinging t c ticks).trace, x ≤ t := by
  intro ticks
  induction ticks with
  | nil => intro t c _ _ x hx; simp [startPinging] at hx
  | cons tk ticks ih =>
    intro t c ht hc x hx
    cases h1 : tk.ctxDone with
    | true =>
      rw [startPinging_cons_done t c tk ticks h1] at hx
      simp at hx
    | false =>
      cases h2 : tk.probeOk with
      | true =>
        rw [startPinging_cons_ok t c tk ticks h1 h2] at hx
        have hx' : x = 0 ∨ x ∈ (startPinging t 0 ticks).trace := List.mem_cons.mp hx
        rcases hx' with rfl | hx'
        · omega
        · exact ih t 0 ht (by omega) x hx'
      | false =>
        by_cases h3 : c + 1 ≥ t
        · rw [startPinging_cons_fail_stop t c tk ticks h1 h2 h3] at hx
          have hx' : x = c + 1 ∨ x ∈ ([] : List Int) := List.mem_cons.mp hx
          rcases hx' with rfl | hx'
          · omega
          · simp at hx'
        · rw [startPinging_cons_fail_go t c tk ticks h1 h2 h3] at hx
          have hx' : x = c + 1 ∨ x ∈ (startPinging t (c + 1) ticks).trace :=
            List.mem_cons.mp hx
          rcases hx' with rfl | hx'
          · omega
          · exact ih t (c + 1) ht (by omega) x hx'

/-- Claim C10: for every threshold at least 1 and every tick sequence,
the consecutive-failure counter observed after each processed tick of a
run started at 0 never exceeds the threshold: the loop stops in the
very step in which the counter first reaches it. -/
theorem startPinging_counter_capped : ∀ (t : Int) (ticks : List Tick), 1 ≤ t →
    ∀ x ∈ (startPinging t 0 ticks).trace, x ≤ t :=
  fun t ticks ht => startPinging_trace_bound ticks t 0 ht (by omega)

/-- Witness for C10: with threshold 2 and two failing ticks, the value
2 is observed in the trace and is indeed bounded by the threshold. -/
theorem startPinging_counter_capped_witness :
    ((2 : Int) ∈ (startPinging 2 0 [failTick, failTick]).trace) ∧ (2 : Int) ≤ 2 :=
  ⟨by decide, startPinging_counter_capped 2 [failTick, failTick] (by decide) 2 (by decide)⟩

end PingPong
